import Mathlib

/-!
Shallow embedding of the gantt-charter repository's schedule loader,
normalizer, renderer glue and CLI configuration resolution
(src/src/gantt_charter.py and src/cli.py), together with theorems
settling the specification's claims about them.

Dates: PyYAML's safe_load parses `2024-01-01` into a calendar date;
pandas' `(finish - start).dt.days` is the exact whole-day difference of
two such dates.  We model a date as a year/month/day triple and the
day-difference through a days-since-epoch conversion (the standard civil
calendar day count).
-/

namespace GanttCharter

/-- A calendar date as parsed by the YAML loader (year, month, day). -/
structure Date where
  year : Int
  month : Int
  day : Int
deriving DecidableEq, Repr

/-- Days since the Unix epoch (1970-01-01) of a civil calendar date; the
standard era-based day count.  All divisions below act on non-negative
operands for in-range dates. -/
def daysFromCivil (d : Date) : Int :=
  let y : Int := if d.month ≤ 2 then d.year - 1 else d.year
  let era : Int := (if 0 ≤ y then y else y - 399) / 400
  let yoe : Int := y - era * 400
  let mp : Int := if d.month > 2 then d.month - 3 else d.month + 9
  let doy : Int := (153 * mp + 2) / 5 + d.day - 1
  let doe : Int := yoe * 365 + yoe / 4 - yoe / 100 + doy
  era * 146097 + doe - 719468

/-- Whole-day difference `(finish - start).dt.days` between two dates
(gantt_charter.py line 87). -/
def durationDays (s f : Date) : Int :=
  daysFromCivil f - daysFromCivil s

/-- Humanized duration string: `f"{d} days" if d != 1 else "1 day"`
(gantt_charter.py line 88). -/
def durationText (d : Int) : String :=
  if d = 1 then "1 day" else toString d ++ " days"

/-- One raw task entry of the YAML document's `tasks` sequence.  Every
field may be absent; `start`/`finish` are dates when present. -/
structure TaskEntry where
  name : Option String
  start : Option Date
  finish : Option Date
  resource : Option String
  phase : Option String
  description : Option String
  dependencies : Option (List String)
deriving DecidableEq, Repr

/-- One normalized row of the task table, i.e. one dict appended to
`df_data` in `yaml_to_dataframe` (gantt_charter.py lines 337-345).
Required fields stay optional (`task.get('name')` yields None when
absent); optional fields carry their defaults. -/
structure TaskRow where
  task : Option String
  start : Option Date
  finish : Option Date
  resource : String
  phase : String
  description : String
  dependencies : List String
deriving DecidableEq, Repr

/-- Normalization of a single task entry: the dict literal built in the
loop body of `yaml_to_dataframe` (gantt_charter.py lines 337-345), with
`task.get(key, default)` modelled by `Option.getD`. -/
def normalizeTask (t : TaskEntry) : TaskRow :=
  { task := t.name
    start := t.start
    finish := t.finish
    resource := t.resource.getD "Unassigned"
    phase := t.phase.getD ""
    description := t.description.getD ""
    dependencies := t.dependencies.getD [] }

/-- The `project` block of the document; only `title` is consumed. -/
structure ProjectBlock where
  title : Option String
deriving DecidableEq, Repr

/-- The `config` block of the document; every field optional. -/
structure ConfigBlock where
  palette : Option String
  width : Option Int
  height : Option Int
  add_branding : Option Bool
  show_dependencies : Option Bool
deriving DecidableEq, Repr

/-- The root YAML document: top-level keys `project`, `config`, `tasks`,
each possibly absent (`yaml_data.get(..., default)`). -/
structure YamlDoc where
  project : Option ProjectBlock
  config : Option ConfigBlock
  tasks : Option (List TaskEntry)
deriving DecidableEq, Repr

/-- The pandas DataFrame produced from the row dicts.  Since every dict
built by `yaml_to_dataframe` carries the same seven keys, the frame's
column set is those seven names when at least one row exists and empty
when the row list is empty (`pd.DataFrame([])` has no columns). -/
structure DataFrame where
  rows : List TaskRow
deriving DecidableEq, Repr

/-- Column names of the frame: the seven dict keys when non-empty,
nothing for `pd.DataFrame([])`. -/
def DataFrame.columns (df : DataFrame) : List String :=
  if df.rows.isEmpty then []
  else ["Task", "Start", "Finish", "Resource", "Phase", "Description", "Dependencies"]

/-- Conversion `yaml_to_dataframe` (gantt_charter.py lines 321-346):
read `tasks` defaulting to the empty sequence, then materialize one row
per entry, in order, via the loop append. -/
def yaml_to_dataframe (yaml_data : YamlDoc) : DataFrame :=
  { rows := (yaml_data.tasks.getD []).map normalizeTask }

/-- One horizontal interval handed to the timeline renderer: the per-row
data `create_gantt_chart` derives and passes to `px.timeline`
(y = Task, x_start/x_end after `pd.to_datetime`, color = Resource,
hover duration text).  A missing date becomes NaT, whose day difference
is NaN, formatted as "nan days" by the f-string. -/
structure Bar where
  task : Option String
  start : Option Date
  finish : Option Date
  resource : String
  durationText : String
deriving DecidableEq, Repr

/-- Build the bar for one row, computing the Duration and Duration_Text
columns (gantt_charter.py lines 87-88). -/
def mkBar (r : TaskRow) : Bar :=
  let dur : Option Int :=
    match r.start, r.finish with
    | some s, some f => some (durationDays s f)
    | _, _ => none
  { task := r.task
    start := r.start
    finish := r.finish
    resource := r.resource
    durationText :=
      match dur with
      | some d => durationText d
      | none => "nan days" }

/-- The figure object as far as this repository populates it: the data
and decorations `create_gantt_chart` sets before returning. -/
structure Figure where
  title : String
  palette : String
  themed : Bool
  bars : List Bar
  yaxisReversed : Bool
  arrows : List (String × String)
  branding : Bool
deriving DecidableEq, Repr

/-- Dependency-arrow step `_add_dependencies` (gantt_charter.py lines
170-174): the body is a bare `pass`, so the figure is returned with no
change whatsoever. -/
def add_dependencies (fig : Figure) (_df : DataFrame) : Figure :=
  fig

/-- The required-column failure message raised by `create_gantt_chart`
(gantt_charter.py line 80); Python renders the list with quoted
elements, elided here. -/
def requiredColsMessage : String :=
  "Data must contain columns: [Task, Start, Finish]"

/-- Chart construction `create_gantt_chart` (gantt_charter.py lines
47-168): validate that the Task/Start/Finish columns exist (raising
ValueError otherwise, modelled as `Except.error`), derive Duration and
Duration_Text, build the timeline figure, reverse the y axis, run the
dependency step when requested and the Dependencies column exists, and
add branding when requested and the theme library is available.  The
import-availability flag OXFORD_THEME_AVAILABLE is the explicit
parameter `themeAvailable`. -/
def create_gantt_chart (df : DataFrame) (title : String) (palette : String)
    (show_dependencies : Bool) (add_branding : Bool) (themeAvailable : Bool) :
    Except String Figure :=
  if ["Task", "Start", "Finish"].all (fun c => df.columns.contains c) then
    let fig : Figure :=
      { title := title
        palette := palette
        themed := themeAvailable
        bars := df.rows.map mkBar
        yaxisReversed := true
        arrows := []
        branding := false }
    let fig :=
      if show_dependencies && df.columns.contains "Dependencies" then
        add_dependencies fig df
      else fig
    let fig :=
      if add_branding && themeAvailable then { fig with branding := true }
      else fig
    Except.ok fig
  else
    Except.error requiredColsMessage

/-- First candidate document location: private data
(gantt_charter.py line 300), relative to the repository base. -/
def privateDataPath : String := "data/gantt_data.yaml"

/-- Second candidate document location: the template
(gantt_charter.py line 301). -/
def templatePath : String := "data/gantt_template.yaml"

/-- Single-quote character, used to spell the message exactly as the
source does. -/
def sq : String := String.singleton (Char.ofNat 39)

/-- Message of the FileNotFoundError raised when no candidate exists
(gantt_charter.py lines 309-311), verbatim. -/
def missingFileMessage : String :=
  "No YAML file found. Please create " ++ sq ++ "data/gantt_data.yaml" ++ sq
    ++ " from the template."

/-- Document-source resolution of `load_data_from_yaml`
(gantt_charter.py lines 284-313): an explicit path is used verbatim;
otherwise the private data path then the template path are probed in
order and the first existing one is selected; if neither exists a
FileNotFoundError (modelled as `Except.error`) carries
`missingFileMessage`.  The filesystem is the explicit oracle
`fileExists`. -/
def load_data_from_yaml (filepath : Option String) (fileExists : String → Bool) :
    Except String String :=
  match filepath with
  | some p => Except.ok p
  | none =>
    if fileExists privateDataPath then Except.ok privateDataPath
    else if fileExists templatePath then Except.ok templatePath
    else Except.error missingFileMessage

/-- Substring occurrence over character lists (helper for reasoning
about which paths an error message names). -/
def containsSub (sub : List Char) : List Char → Bool
  | [] => sub.isEmpty
  | c :: t => sub.isPrefixOf (c :: t) || containsSub sub t

/-- Whether the string `msg` names (contains) the string `path`. -/
def strMentions (msg path : String) : Bool :=
  containsSub path.data msg.data

/-- Parsed command-line arguments of cli.py with their argparse
defaults: the input, output, palette and title flags default to None,
the format flag to "html", width to 1200, height to 600, scale to 3;
the branding flag is store_true with default None, and the no-branding
flag is store_true with default False. -/
structure CliArgs where
  input : Option String
  output : Option String
  format : String
  width : Int
  height : Int
  scale : Int
  palette : Option String
  title : Option String
  branding : Option Bool
  no_branding : Bool
  showChart : Bool
  verbose : Bool
deriving DecidableEq, Repr

/-- The args object produced by argparse when no flag is given. -/
def defaultArgs : CliArgs :=
  { input := none, output := none, format := "html", width := 1200
    height := 600, scale := 3, palette := none, title := none
    branding := none, no_branding := false, showChart := false, verbose := false }

/-- Python `a or b` on an optional string: an absent or empty (falsy)
left operand yields the right operand. -/
def pyOrStr (o : Option String) (d : String) : String :=
  match o with
  | some s => if s = "" then d else s
  | none => d

/-- Python `a or b` on an integer left operand: zero is falsy. -/
def pyOrInt (v : Int) (d : Int) : Int :=
  if v = 0 then d else v

/-- The `project = yaml_data.get('project', {})` line of main
(cli.py line 149): an absent project block acts as an empty mapping. -/
def projOf (project : Option ProjectBlock) : ProjectBlock :=
  project.getD { title := none }

/-- The `config = yaml_data.get('config', {})` line of main
(cli.py line 150): an absent config block acts as an empty mapping. -/
def cfgOf (config : Option ConfigBlock) : ConfigBlock :=
  config.getD
    { palette := none, width := none, height := none
      add_branding := none, show_dependencies := none }

/-- Title resolution `args.title or project.get('title', 'Project
Timeline')` (cli.py line 157). -/
def resolveTitle (args : CliArgs) (project : Option ProjectBlock) : String :=
  pyOrStr args.title (((projOf project).title).getD "Project Timeline")

/-- Palette resolution `args.palette or config.get('palette',
'professional')` (cli.py line 158). -/
def resolvePalette (args : CliArgs) (config : Option ConfigBlock) : String :=
  pyOrStr args.palette (((cfgOf config).palette).getD "professional")

/-- Branding resolution (cli.py lines 161-166): the no-branding flag
forces False; otherwise a given branding flag (is not None) wins;
otherwise the document value; otherwise False. -/
def resolveBranding (args : CliArgs) (config : Option ConfigBlock) : Bool :=
  if args.no_branding then false
  else
    match args.branding with
    | some b => b
    | none => ((cfgOf config).add_branding).getD false

/-- Width resolution `args.width or config.get('width', 1200)`
(cli.py line 169); note `args.width` always holds an integer (argparse
default 1200), so the document value is reached only when the
command-line value is 0. -/
def resolveWidth (args : CliArgs) (config : Option ConfigBlock) : Int :=
  pyOrInt args.width (((cfgOf config).width).getD 1200)

/-- Height resolution `args.height or config.get('height', 600)`
(cli.py line 170). -/
def resolveHeight (args : CliArgs) (config : Option ConfigBlock) : Int :=
  pyOrInt args.height (((cfgOf config).height).getD 600)

/-- Show-dependencies resolution: the CLI defines no flag for it and
passes `config.get('show_dependencies', False)` directly (cli.py line
183). -/
def resolveShowDependencies (config : Option ConfigBlock) : Bool :=
  ((cfgOf config).show_dependencies).getD false

/-- A document whose single task lacks the required `start` field
(used to exercise row-level lazy validation). -/
def docMissingStart : YamlDoc :=
  { project := none, config := none
    tasks := some [{ name := some "A", start := none, finish := some ⟨2024, 1, 5⟩
                     resource := none, phase := none, description := none
                     dependencies := none }] }

/-- A document with an explicitly empty tasks sequence. -/
def docEmptyTasks : YamlDoc :=
  { project := none, config := none, tasks := some [] }

/-- A document with no tasks key at all. -/
def docNoTasksKey : YamlDoc :=
  { project := none, config := none, tasks := none }

/-- Helper: a normalized table with an empty task list has no columns and
fails the required-column check of `create_gantt_chart`. -/
theorem createChart_empty_tasks (d : YamlDoc) (title palette : String)
    (sd ab th : Bool) (h : d.tasks.getD [] = []) :
    create_gantt_chart (yaml_to_dataframe d) title palette sd ab th
      = Except.error requiredColsMessage := by
  simp [create_gantt_chart, yaml_to_dataframe, DataFrame.columns, h]

/-- Helper: a normalized table with at least one task always carries all
seven columns, so the required-column check of `create_gantt_chart`
passes and the call returns a figure. -/
theorem createChart_nonempty_tasks (d : YamlDoc) (title palette : String)
    (sd ab th : Bool) (h : d.tasks.getD [] ≠ []) :
    ∃ fig, create_gantt_chart (yaml_to_dataframe d) title palette sd ab th
      = Except.ok fig := by
  rcases hl : d.tasks.getD [] with _ | ⟨a, l⟩
  · exact absurd hl h
  · have hcols : (yaml_to_dataframe d).columns
        = ["Task", "Start", "Finish", "Resource", "Phase", "Description", "Dependencies"] := by
      simp [yaml_to_dataframe, DataFrame.columns, hl]
    unfold create_gantt_chart
    rw [hcols]
    exact ⟨_, rfl⟩

/-- C3: in the figure, each row with both dates present carries the
duration text of the whole-day difference finish minus start; equal
dates give duration 0; 2024-01-01 to 2024-01-02 gives duration 1 with
label "1 day"; the label is singular exactly at 1 and "N days"
otherwise, including 0 and negative N. -/
theorem c3_duration_derivation :
    (∀ (r : TaskRow) (s f : Date), r.start = some s → r.finish = some f →
      (mkBar r).durationText = durationText (durationDays s f))
    ∧ (∀ d : Date, durationDays d d = 0)
    ∧ durationDays ⟨2024, 1, 1⟩ ⟨2024, 1, 2⟩ = 1
    ∧ durationText 1 = "1 day"
    ∧ durationText 0 = "0 days"
    ∧ durationText (-3) = "-3 days"
    ∧ (∀ n : Int, n ≠ 1 → durationText n = toString n ++ " days") := by
  refine ⟨?_, ?_, by decide, by decide, by decide, by decide, ?_⟩
  · intro r s f hs hf
    simp [mkBar, hs, hf]
  · intro d
    simp [durationDays]
  · intro n hn
    simp [durationText, hn]

/-- Witness for C3 at concrete inputs. -/
theorem c3_duration_derivation_witness :
    (mkBar { task := some "A", start := some ⟨2024, 1, 1⟩
             finish := some ⟨2024, 1, 2⟩, resource := "Unassigned"
             phase := "", description := "", dependencies := [] }).durationText
      = durationText (durationDays ⟨2024, 1, 1⟩ ⟨2024, 1, 2⟩)
    ∧ durationText 0 = toString (0 : Int) ++ " days" :=
  ⟨c3_duration_derivation.1 _ ⟨2024, 1, 1⟩ ⟨2024, 1, 2⟩ rfl rfl,
   c3_duration_derivation.2.2.2.2.2.2 0 (by decide)⟩

/-- C4: normalization applies field-level defaults independently —
missing resource becomes "Unassigned", missing phase and description
become empty strings, missing dependencies becomes the empty list;
every present field keeps exactly its document value; and omitting one
optional field changes only that field of the row, never a sibling. -/
theorem c4_field_defaults :
    ∀ t : TaskEntry,
      ((normalizeTask t).task = t.name)
      ∧ ((normalizeTask t).start = t.start)
      ∧ ((normalizeTask t).finish = t.finish)
      ∧ (t.resource = none → (normalizeTask t).resource = "Unassigned")
      ∧ (∀ v, t.resource = some v → (normalizeTask t).resource = v)
      ∧ (t.phase = none → (normalizeTask t).phase = "")
      ∧ (∀ v, t.phase = some v → (normalizeTask t).phase = v)
      ∧ (t.description = none → (normalizeTask t).description = "")
      ∧ (∀ v, t.description = some v → (normalizeTask t).description = v)
      ∧ (t.dependencies = none → (normalizeTask t).dependencies = [])
      ∧ (∀ l, t.dependencies = some l → (normalizeTask t).dependencies = l)
      ∧ (normalizeTask { t with resource := none }
          = { normalizeTask t with resource := "Unassigned" })
      ∧ (normalizeTask { t with phase := none }
          = { normalizeTask t with phase := "" })
      ∧ (normalizeTask { t with description := none }
          = { normalizeTask t with description := "" })
      ∧ (normalizeTask { t with dependencies := none }
          = { normalizeTask t with dependencies := [] }) := by
  intro t
  refine ⟨rfl, rfl, rfl, ?_, ?_, ?_, ?_, ?_, ?_, ?_, ?_, rfl, rfl, rfl, rfl⟩
  all_goals intro h
  all_goals try intro hv
  all_goals simp_all [normalizeTask]

/-- Witness for C4: a task entry missing only its resource. -/
theorem c4_field_defaults_witness :
    (normalizeTask { name := some "A", start := some ⟨2024, 1, 1⟩
                     finish := some ⟨2024, 1, 5⟩, resource := none
                     phase := some "design", description := some "d"
                     dependencies := some ["B"] }).resource = "Unassigned"
    ∧ (normalizeTask { name := some "A", start := some ⟨2024, 1, 1⟩
                       finish := some ⟨2024, 1, 5⟩, resource := none
                       phase := some "design", description := some "d"
                       dependencies := some ["B"] }).phase = "design" := by
  obtain ⟨-, -, -, hres, -, -, hph, -⟩ := c4_field_defaults
    { name := some "A", start := some ⟨2024, 1, 1⟩, finish := some ⟨2024, 1, 5⟩
      resource := none, phase := some "design", description := some "d"
      dependencies := some ["B"] }
  exact ⟨hres rfl, hph "design" rfl⟩

/-- C5: the normalized table has exactly one row per task entry of the
document, at the same position — the document order is preserved with no
sorting, filtering or deduplication. -/
theorem c5_order_preservation :
    ∀ d : YamlDoc,
      (yaml_to_dataframe d).rows.length = (d.tasks.getD []).length
      ∧ ∀ i : Nat,
          (yaml_to_dataframe d).rows.get? i
            = ((d.tasks.getD []).get? i).map normalizeTask := by
  intro d
  constructor
  · simp [yaml_to_dataframe]
  · intro i
    simp [yaml_to_dataframe]

/-- C6: normalization is deterministic — two runs on the same document
agree as whole tables and field for field on every column. -/
theorem c6_idempotent_normalization :
    ∀ d : YamlDoc,
      yaml_to_dataframe d = yaml_to_dataframe d
      ∧ (yaml_to_dataframe d).rows.map TaskRow.task
          = (yaml_to_dataframe d).rows.map TaskRow.task
      ∧ (yaml_to_dataframe d).rows.map TaskRow.start
          = (yaml_to_dataframe d).rows.map TaskRow.start
      ∧ (yaml_to_dataframe d).rows.map TaskRow.finish
          = (yaml_to_dataframe d).rows.map TaskRow.finish
      ∧ (yaml_to_dataframe d).rows.map TaskRow.resource
          = (yaml_to_dataframe d).rows.map TaskRow.resource
      ∧ (yaml_to_dataframe d).rows.map TaskRow.phase
          = (yaml_to_dataframe d).rows.map TaskRow.phase
      ∧ (yaml_to_dataframe d).rows.map TaskRow.description
          = (yaml_to_dataframe d).rows.map TaskRow.description
      ∧ (yaml_to_dataframe d).rows.map TaskRow.dependencies
          = (yaml_to_dataframe d).rows.map TaskRow.dependencies :=
  fun _ => ⟨rfl, rfl, rfl, rfl, rfl, rfl, rfl, rfl⟩

/-- C7: an explicit path is used verbatim with no probing; otherwise the
private data path is probed first and the template path second, and the
first existing candidate is selected. -/
theorem c7_source_resolution :
    ∀ fileExists : String → Bool,
      (∀ p : String, load_data_from_yaml (some p) fileExists = Except.ok p)
      ∧ (fileExists privateDataPath = true →
          load_data_from_yaml none fileExists = Except.ok privateDataPath)
      ∧ (fileExists privateDataPath = false → fileExists templatePath = true →
          load_data_from_yaml none fileExists = Except.ok templatePath) := by
  intro fe
  refine ⟨fun p => rfl, fun h => ?_, fun h1 h2 => ?_⟩
  · simp [load_data_from_yaml, h]
  · simp [load_data_from_yaml, h1, h2]

/-- Witness for C7 at concrete filesystems. -/
theorem c7_source_resolution_witness :
    load_data_from_yaml (some "custom.yaml") (fun _ => false)
      = Except.ok "custom.yaml"
    ∧ load_data_from_yaml none (fun _ => true) = Except.ok privateDataPath
    ∧ load_data_from_yaml none (fun s => s == templatePath)
      = Except.ok templatePath :=
  ⟨(c7_source_resolution (fun _ => false)).1 "custom.yaml",
   (c7_source_resolution (fun _ => true)).2.1 rfl,
   (c7_source_resolution (fun s => s == templatePath)).2.2 (by decide) (by decide)⟩

/-- C9: dependency rendering is a no-op — for every data frame and all
other settings, the figure with show_dependencies enabled equals the
figure with it disabled, because the dependency step returns the figure
unchanged. -/
theorem c9_dependencies_noop :
    ∀ (df : DataFrame) (title palette : String) (ab th : Bool),
      create_gantt_chart df title palette true ab th
        = create_gantt_chart df title palette false ab th := by
  intro df title palette ab th
  simp [create_gantt_chart, add_dependencies]

/-- C1 counterexample: with document config width 800 and a default
command line (argparse fills width with 1200, not None), the resolved
width is 1200 and not the document value 800 — the claimed per-field
precedence entry-point-override over document-value over default fails
for the width field. -/
theorem c1_counterexample :
    resolveWidth defaultArgs
        (some { palette := none, width := some 800, height := none
                add_branding := none, show_dependencies := none }) = 1200
    ∧ (1200 : Int) ≠ 800 := by
  exact ⟨rfl, by decide⟩

/-- C1 (amended): the three-tier precedence holds for palette, title,
branding and show-dependencies (a non-empty override wins, else the
document value, else the default, with no-branding forcing false and no
override existing for show-dependencies); for width and height the
command line always supplies a value (defaults 1200 and 600), so the
resolved value is the command-line value whenever it is non-zero — in
particular it is 1200 or 600 under a default command line regardless of
the document — and the document value is reached only at 0. -/
theorem c1_config_precedence :
    ∀ (args : CliArgs) (project : Option ProjectBlock) (config : Option ConfigBlock),
      (∀ p, args.palette = some p → p ≠ "" → resolvePalette args config = p)
      ∧ (args.palette = none → ∀ s, (cfgOf config).palette = some s →
          resolvePalette args config = s)
      ∧ (args.palette = none → (cfgOf config).palette = none →
          resolvePalette args config = "professional")
      ∧ (∀ t, args.title = some t → t ≠ "" → resolveTitle args project = t)
      ∧ (args.title = none → ∀ s, (projOf project).title = some s →
          resolveTitle args project = s)
      ∧ (args.title = none → (projOf project).title = none →
          resolveTitle args project = "Project Timeline")
      ∧ (args.no_branding = true → resolveBranding args config = false)
      ∧ (args.no_branding = false → ∀ b, args.branding = some b →
          resolveBranding args config = b)
      ∧ (args.no_branding = false → args.branding = none →
          ∀ b, (cfgOf config).add_branding = some b → resolveBranding args config = b)
      ∧ (args.no_branding = false → args.branding = none →
          (cfgOf config).add_branding = none → resolveBranding args config = false)
      ∧ (∀ b, (cfgOf config).show_dependencies = some b →
          resolveShowDependencies config = b)
      ∧ ((cfgOf config).show_dependencies = none →
          resolveShowDependencies config = false)
      ∧ (args.width = 1200 → resolveWidth args config = 1200)
      ∧ (args.width ≠ 0 → resolveWidth args config = args.width)
      ∧ (args.width = 0 → ∀ w, (cfgOf config).width = some w →
          resolveWidth args config = w)
      ∧ (args.height = 600 → resolveHeight args config = 600)
      ∧ (args.height ≠ 0 → resolveHeight args config = args.height)
      ∧ (args.height = 0 → ∀ h, (cfgOf config).height = some h →
          resolveHeight args config = h) := by
  intro args project config
  refine ⟨?_, ?_, ?_, ?_, ?_, ?_, ?_, ?_, ?_, ?_, ?_, ?_, ?_, ?_, ?_, ?_, ?_, ?_⟩
  · intro p hp hne
    simp [resolvePalette, pyOrStr, hp, hne]
  · intro hp s hs
    simp [resolvePalette, pyOrStr, hp, hs]
  · intro hp hs
    simp [resolvePalette, pyOrStr, hp, hs]
  · intro t ht hne
    simp [resolveTitle, pyOrStr, ht, hne]
  · intro ht s hs
    simp [resolveTitle, pyOrStr, ht, hs]
  · intro ht hs
    simp [resolveTitle, pyOrStr, ht, hs]
  · intro hnb
    simp [resolveBranding, hnb]
  · intro hnb b hb
    simp [resolveBranding, hnb, hb]
  · intro hnb hb b hc
    simp [resolveBranding, hnb, hb, hc]
  · intro hnb hb hc
    simp [resolveBranding, hnb, hb, hc]
  · intro b hb
    simp [resolveShowDependencies, hb]
  · intro hb
    simp [resolveShowDependencies, hb]
  · intro hw
    simp [resolveWidth, pyOrInt, hw]
  · intro hw
    simp [resolveWidth, pyOrInt, hw]
  · intro hw w hcw
    simp [resolveWidth, pyOrInt, hw, hcw]
  · intro hh
    simp [resolveHeight, pyOrInt, hh]
  · intro hh
    simp [resolveHeight, pyOrInt, hh]
  · intro hh h hch
    simp [resolveHeight, pyOrInt, hh, hch]

/-- Witness for C1 (amended): the specification's palette triple
(override wins, document wins, built-in default) and the width behavior
under a default command line with a document width of 800. -/
theorem c1_config_precedence_witness :
    resolvePalette { defaultArgs with palette := some "vibrant" }
        (some { palette := some "corporate", width := some 800, height := none
                add_branding := none, show_dependencies := none }) = "vibrant"
    ∧ resolvePalette defaultArgs
        (some { palette := some "corporate", width := some 800, height := none
                add_branding := none, show_dependencies := none }) = "corporate"
    ∧ resolvePalette defaultArgs none = "professional"
    ∧ resolveWidth defaultArgs
        (some { palette := some "corporate", width := some 800, height := none
                add_branding := none, show_dependencies := none }) = 1200 := by
  refine ⟨?_, ?_, ?_, ?_⟩
  · exact (c1_config_precedence { defaultArgs with palette := some "vibrant" } none
      (some { palette := some "corporate", width := some 800, height := none
              add_branding := none, show_dependencies := none })).1
      "vibrant" rfl (by decide)
  · exact (c1_config_precedence defaultArgs none
      (some { palette := some "corporate", width := some 800, height := none
              add_branding := none, show_dependencies := none })).2.1
      rfl "corporate" rfl
  · exact (c1_config_precedence defaultArgs none none).2.2.1 rfl rfl
  · exact (c1_config_precedence defaultArgs none
      (some { palette := some "corporate", width := some 800, height := none
              add_branding := none, show_dependencies := none })).2.2.2.2.2.2.2.2.2.2.2.2.1
      rfl

/-- C2 counterexample: when neither candidate exists the loader does
fail, but the error message names only the private data path — the
template path does not occur in the message, so the message does not
name both checked candidates as the claim states. -/
theorem c2_counterexample :
    load_data_from_yaml none (fun _ => false) = Except.error missingFileMessage
    ∧ strMentions missingFileMessage privateDataPath = true
    ∧ strMentions missingFileMessage templatePath = false :=
  ⟨rfl, by decide, by decide⟩

/-- C2 (amended): when no explicit path is given and neither candidate
exists, loading fails with a file-not-found error whose message names
the private data path and directs the user to create it from the
template, but does not name the template path itself. -/
theorem c2_missing_document_error :
    ∀ fileExists : String → Bool,
      fileExists privateDataPath = false → fileExists templatePath = false →
      load_data_from_yaml none fileExists = Except.error missingFileMessage
      ∧ strMentions missingFileMessage privateDataPath = true
      ∧ strMentions missingFileMessage templatePath = false := by
  intro fe h1 h2
  refine ⟨?_, by decide, by decide⟩
  simp [load_data_from_yaml, h1, h2]

/-- Witness for C2 (amended) on the empty filesystem. -/
theorem c2_missing_document_error_witness :
    load_data_from_yaml none (fun _ => false) = Except.error missingFileMessage
    ∧ strMentions missingFileMessage privateDataPath = true
    ∧ strMentions missingFileMessage templatePath = false :=
  c2_missing_document_error (fun _ => false) rfl rfl

/-- C8 counterexample: a document whose single task lacks the required
start field normalizes to a row with start none, yet the rendering
stage raises no ValueError — the required-column check passes because a
non-empty normalized table always carries all seven columns, so the
claimed "raises exactly when a required field is missing" fails. -/
theorem c8_counterexample :
    (yaml_to_dataframe docMissingStart).rows.map TaskRow.start = [none]
    ∧ create_gantt_chart (yaml_to_dataframe docMissingStart)
        "T" "professional" false false true
      = Except.ok
          { title := "T", palette := "professional", themed := true
            bars := [{ task := some "A", start := none
                       finish := some ⟨2024, 1, 5⟩, resource := "Unassigned"
                       durationText := "nan days" }]
            yaxisReversed := true, arrows := [], branding := false } :=
  ⟨rfl, rfl⟩

/-- C8 (amended): validation of name/start/finish is lazy in that
normalization never fails on a missing required field (it becomes none
in the row), but the rendering stage's ValueError is a column-presence
check, not a per-row check: on normalized tables it fails exactly when
the task list is empty, and a row-level missing required field passes
it and flows on as a null value. -/
theorem c8_lazy_validation :
    ∀ (d : YamlDoc) (title palette : String) (sd ab th : Bool),
      (∀ t : TaskEntry, t.name = none → (normalizeTask t).task = none)
      ∧ (∀ t : TaskEntry, t.start = none → (normalizeTask t).start = none)
      ∧ (∀ t : TaskEntry, t.finish = none → (normalizeTask t).finish = none)
      ∧ (d.tasks.getD [] ≠ [] →
          ∃ fig, create_gantt_chart (yaml_to_dataframe d) title palette sd ab th
            = Except.ok fig)
      ∧ (d.tasks.getD [] = [] →
          create_gantt_chart (yaml_to_dataframe d) title palette sd ab th
            = Except.error requiredColsMessage) := by
  intro d title palette sd ab th
  refine ⟨?_, ?_, ?_, ?_, ?_⟩
  · intro t h
    simp [normalizeTask, h]
  · intro t h
    simp [normalizeTask, h]
  · intro t h
    simp [normalizeTask, h]
  · intro h
    exact createChart_nonempty_tasks d title palette sd ab th h
  · intro h
    exact createChart_empty_tasks d title palette sd ab th h

/-- Witness for C8 (amended): the document with a start-less task
renders without error, and the empty document fails the column check. -/
theorem c8_lazy_validation_witness :
    (∃ fig, create_gantt_chart (yaml_to_dataframe docMissingStart)
        "T" "professional" false false true = Except.ok fig)
    ∧ create_gantt_chart (yaml_to_dataframe docEmptyTasks)
        "T" "professional" false false true
      = Except.error requiredColsMessage := by
  constructor
  · exact (c8_lazy_validation docMissingStart "T" "professional"
      false false true).2.2.2.1 (by decide)
  · exact (c8_lazy_validation docEmptyTasks "T" "professional"
      false false true).2.2.2.2 rfl

/-- C10: a document whose tasks sequence is empty or absent normalizes
to a table with no rows and no columns at all, so the rendering stage's
required-column check fails and a ValueError is raised — an empty
schedule can never be rendered. -/
theorem c10_empty_tasks :
    ∀ (d : YamlDoc) (title palette : String) (sd ab th : Bool),
      d.tasks.getD [] = [] →
      (yaml_to_dataframe d).rows = []
      ∧ (yaml_to_dataframe d).columns = []
      ∧ create_gantt_chart (yaml_to_dataframe d) title palette sd ab th
        = Except.error requiredColsMessage := by
  intro d title palette sd ab th h
  refine ⟨?_, ?_, createChart_empty_tasks d title palette sd ab th h⟩
  · simp [yaml_to_dataframe, h]
  · simp [yaml_to_dataframe, DataFrame.columns, h]

/-- Witness for C10 on both empty-tasks shapes. -/
theorem c10_empty_tasks_witness :
    ((yaml_to_dataframe docEmptyTasks).columns = []
      ∧ create_gantt_chart (yaml_to_dataframe docEmptyTasks)
          "T" "professional" false false true
        = Except.error requiredColsMessage)
    ∧ ((yaml_to_dataframe docNoTasksKey).columns = []
      ∧ create_gantt_chart (yaml_to_dataframe docNoTasksKey)
          "T" "professional" false false true
        = Except.error requiredColsMessage) := by
  constructor
  · obtain ⟨-, h2, h3⟩ := c10_empty_tasks docEmptyTasks "T" "professional"
      false false true rfl
    exact ⟨h2, h3⟩
  · obtain ⟨-, h2, h3⟩ := c10_empty_tasks docNoTasksKey "T" "professional"
      false false true rfl
    exact ⟨h2, h3⟩

end GanttCharter
